import Mathlib

/-!
The transport layer of lafrpc (`src/cpp/src/transport.cpp`).

A shallow embedding of the transport layer of lafrpc: address parsing, the
two-byte handshake on accepted streams, the raw-socket registry and the HTTP
upgrade handler, followed by theorems about them.

Conventions of the embedding.

* `QString` is a list of characters and `QByteArray` a list of byte values.
* Library classes (Qt, qtng) are not part of the repository.  `QUrl` is a
  record of the three accessors the code reads, and the URL parser is a
  parameter `qurl : QString → QUrl` of every function that constructs a
  `QUrl`.
* The environment of a stream (what the peer sends, what `sendall` returns)
  is part of the stream state, so that a handler is a function on states.
* A `QPointer<Rpc>` is an `Option Rpc`; dereferencing a null one is the
  fault `Fault.nullRpc`.
-/

namespace Lafrpc

/-! ## Strings and byte arrays -/

/-- A `QString`, as the list of its characters. -/
abbrev QString := List Char

/-- A `QByteArray`, as the list of its byte values. -/
abbrev QByteArray := List Nat

/-- `QString::startsWith(p)` with the default case-sensitive comparison. -/
def startsWith (s p : QString) : Bool := p.isPrefixOf s

/-- `QChar::digitValue` on the ASCII digits. -/
def digitValue (c : Char) : Option Nat :=
  if c.isDigit then some (c.toNat - 48) else none

/-- The digits of a place marker: one digit, or two when a second one follows.
Returns the marker number and how many characters it takes. -/
def escapeDigits : List Char → Option (Nat × Nat)
  | [] => none
  | d :: rest =>
    match digitValue d with
    | none => none
    | some v =>
      match rest with
      | [] => some (v, 1)
      | e :: _ =>
        match digitValue e with
        | some w => some (10 * v + w, 2)
        | none => some (v, 1)

/-- What follows the percent sign of a place marker: an optional `L` and the
digits.  Returns the marker number and how many characters it takes. -/
def parseEscape : List Char → Option (Nat × Nat)
  | 'L' :: rest => (escapeDigits rest).map fun nk => (nk.1, nk.2 + 1)
  | s => escapeDigits s

/-- The numbers of the place markers of a string, in order (the scan of
`findArgEscapes`).  The first argument counts characters still to be skipped
because they belong to the marker just read. -/
def argEscapes : Nat → List Char → List Nat
  | _, [] => []
  | k + 1, _ :: rest => argEscapes k rest
  | 0, c :: rest =>
    if c = '%' then
      match parseEscape rest with
      | some (n, k) => n :: argEscapes k rest
      | none => argEscapes 0 rest
    else argEscapes 0 rest

/-- Replace every place marker numbered `m` by `a` (`replaceArgEscapes`). -/
def replaceArgEscapes (m : Nat) (a : QString) : Nat → List Char → List Char
  | _, [] => []
  | k + 1, _ :: rest => replaceArgEscapes m a k rest
  | 0, c :: rest =>
    if c = '%' then
      match parseEscape rest with
      | some (n, k) =>
        if n = m then a ++ replaceArgEscapes m a k rest
        else c :: replaceArgEscapes m a 0 rest
      | none => c :: replaceArgEscapes m a 0 rest
    else c :: replaceArgEscapes m a 0 rest

/-- `QString::arg(a)`: the lowest-numbered place marker is replaced by `a`;
a string without place markers is returned as it is. -/
def arg (s a : QString) : QString :=
  match (argEscapes 0 s).min? with
  | none => s
  | some m => replaceArgEscapes m a 0 s

/-- The decimal text of a number, as `QString::arg(quint16)` inserts it. -/
def number (n : Nat) : QString := (Nat.repr n).toList

/-! ## Addresses -/

/-- The four stream transports that share `TcpTransport::parseAddress`. -/
inductive TransportKind where
  | tcp
  | ssl
  | kcp
  | kcpSsl
  deriving DecidableEq, Repr

/-- `TcpTransport::canHandle`. -/
def TcpTransport.canHandle (address : QString) : Bool :=
  startsWith address "tcp://".toList

/-- `SslTransport::canHandle`. -/
def SslTransport.canHandle (address : QString) : Bool :=
  startsWith address "ssl://".toList

/-- `KcpTransport::canHandle`. -/
def KcpTransport.canHandle (address : QString) : Bool :=
  startsWith address "kcp://".toList

/-- `KcpSslTransport::canHandle`. -/
def KcpSslTransport.canHandle (address : QString) : Bool :=
  startsWith address "kcp+ssl://".toList || startsWith address "ssl+kcp://".toList

/-- `TcpTransport::getAddressTemplate`. -/
def TcpTransport.getAddressTemplate : QString := "tcp://%1:%2".toList

/-- `SslTransport::getAddressTemplate`. -/
def SslTransport.getAddressTemplate : QString := "ssl://%1:%2".toList

/-- `KcpTransport::getAddressTemplate`. -/
def KcpTransport.getAddressTemplate : QString := "kcp://%1:%2".toList

/-- `KcpSslTransport::getAddressTemplate`. -/
def KcpSslTransport.getAddressTemplate : QString := "kcp+ssl://%1:%2".toList

/-- Virtual dispatch of `canHandle`. -/
def canHandle : TransportKind → QString → Bool
  | .tcp => TcpTransport.canHandle
  | .ssl => SslTransport.canHandle
  | .kcp => KcpTransport.canHandle
  | .kcpSsl => KcpSslTransport.canHandle

/-- Virtual dispatch of `getAddressTemplate`. -/
def getAddressTemplate : TransportKind → QString
  | .tcp => TcpTransport.getAddressTemplate
  | .ssl => SslTransport.getAddressTemplate
  | .kcp => KcpTransport.getAddressTemplate
  | .kcpSsl => KcpSslTransport.getAddressTemplate

/-- What `parseAddress` reads of a `QUrl`: `isValid()`, `host()` and `port()`.
`QUrl::port()` is `-1` when the URL has no port and a 16-bit value otherwise;
the two bounds record that range. -/
structure QUrl where
  isValid : Bool
  host : QString
  port : Int
  port_ge : -1 ≤ port
  port_le : port ≤ 65535

/-- The result of `parseAddress`: the returned flag and the two output
parameters as they stand when the function returns. -/
structure ParseResult where
  ok : Bool
  host : QString
  port : Nat
  deriving DecidableEq, Repr

/-- `static_cast<quint16>` of an `int`. -/
def toQuint16 (i : Int) : Nat := (i % 65536).toNat

/-- `TcpTransport::parseAddress(address, host, port)`.  `host` and `port` are
the values of the output parameters before the call. -/
def TcpTransport.parseAddress (t : TransportKind) (qurl : QString → QUrl)
    (address : QString) (host : QString) (port : Nat) : ParseResult :=
  if !Lafrpc.canHandle t address then
    ⟨false, host, port⟩
  else
    let u := qurl address
    if !u.isValid || u.port ≤ 0 then
      ⟨false, host, port⟩
    else
      let host := u.host
      if host.isEmpty then
        ⟨false, host, port⟩
      else
        let port := toQuint16 u.port
        ⟨decide (port > 0), host, port⟩

/-- The peer certificate of a TLS stream, through the two accessors that
`setupChannel` reads: `save(Ssl::Pem)` and `digest(MessageDigest::Sha256)`. -/
structure PeerCertificate where
  pem : QByteArray
  sha256 : QByteArray
  deriving DecidableEq, Repr

/-- A `qtng::HostAddress`, through `protocol() == IPv6Protocol` and
`toString()`. -/
structure HostAddress where
  isIPv6 : Bool
  text : QString
  deriving DecidableEq, Repr

/-- A `QSharedPointer<qtng::SocketLike>` that is not null: the identity of the
stream object and what does not change while a handler runs.  `ssl` is the
result of `convertSocketLikeToSslSocket`: `none` for a stream that is not a
TLS stream, and the peer certificate of a TLS stream otherwise. -/
structure SocketLike where
  ident : Nat
  ssl : Option PeerCertificate
  peerAddress : HostAddress
  peerPort : Nat
  deriving DecidableEq, Repr

/-- The state of a stream and of its environment.  `incoming` holds the bytes
the peer delivers before reading ends, `sendResults` the values that the
successive calls of `sendall` return; `received` and `sent` record what the
program has read and what it has passed to `sendall`. -/
structure StreamIO where
  incoming : QByteArray
  sendResults : List Int
  received : QByteArray
  sent : List QByteArray
  lowDelay : Bool
  closed : Bool
  deriving DecidableEq, Repr

/-- `request->recvall(n)`: up to `n` bytes, fewer when reading ends early. -/
def recvall (n : Nat) (io : StreamIO) : QByteArray × StreamIO :=
  (io.incoming.take n,
   { io with incoming := io.incoming.drop n, received := io.received ++ io.incoming.take n })

/-- `request->sendall(data)`: the number of bytes sent, or a negative value. -/
def sendall (data : QByteArray) (io : StreamIO) : Int × StreamIO :=
  match io.sendResults with
  | [] => (-1, { io with sent := io.sent ++ [data] })
  | r :: rs => (r, { io with sendResults := rs, sent := io.sent ++ [data] })

/-- `request->setOption(qtng::Socket::LowDelayOption, true)`. -/
def setLowDelay (io : StreamIO) : StreamIO := { io with lowDelay := true }

/-- The magic bytes that open an RPC channel, `"\x4e\x67"`. -/
def channelMagic : QByteArray := [0x4e, 0x67]

/-- The magic bytes that open a raw socket, `"\x33\x74"`. -/
def rawSocketMagic : QByteArray := [0x33, 0x74]

/-- The acknowledgement of the raw-socket handshake, `"\xf3\x97"`. -/
def rawSocketAck : QByteArray := [0xf3, 0x97]

/-- The role of a channel. -/
inductive Pole where
  | positive
  | negative
  deriving DecidableEq, Repr

/-- A `qtng::DataChannel`: the stream it wraps, its pole, the packet size set
through `setMaxPacketSize` (if any) and its property bag. -/
structure DataChannel where
  connection : SocketLike
  pole : Pole
  maxPacketSize : Option Nat
  properties : List (String × QByteArray)
  deriving DecidableEq, Repr

/-- `new qtng::SocketChannel(connection, pole)`. -/
def SocketChannel (connection : SocketLike) (pole : Pole) : DataChannel :=
  ⟨connection, pole, none, []⟩

/-- `channel->setProperty(name, value)`. -/
def DataChannel.setProperty (channel : DataChannel) (name : String) (value : QByteArray) :
    DataChannel :=
  { channel with
    properties := channel.properties.filter (fun e => e.1 ≠ name) ++ [(name, value)] }

/-- `channel->property(name)`. -/
def DataChannel.property (channel : DataChannel) (name : String) : Option QByteArray :=
  (channel.properties.find? (fun e => e.1 = name)).map Prod.snd

/-- Modelled from the spec: the `RawSocket` entry of the registry, declared in
`transport.h`: the adopted stream and its arrival timestamp.  A
default-constructed entry holds a null stream and an invalid timestamp. -/
structure RawSocket where
  connection : Option SocketLike
  timestamp : Option Nat
  deriving DecidableEq, Repr

/-- Modelled from the spec: the member `rawConnections`, declared in
`transport.h`: a map from connection ids to `RawSocket` entries. -/
abbrev Registry := List (QByteArray × RawSocket)

/-- The entry stored under a key, if there is one. -/
def Registry.find : Registry → QByteArray → Option RawSocket
  | [], _ => none
  | (k, v) :: m, key => if k = key then some v else Registry.find m key

/-- `rawConnections.insert(key, value)`: the value of an existing entry is
replaced. -/
def Registry.insert : Registry → QByteArray → RawSocket → Registry
  | [], key, value => [(key, value)]
  | (k, v) :: m, key, value =>
    if k = key then (k, value) :: m else (k, v) :: Registry.insert m key value

/-- `rawConnections[key]` on the non-const map: a missing key is first
inserted with a default-constructed entry. -/
def Registry.subscript (m : Registry) (key : QByteArray) : RawSocket × Registry :=
  match Registry.find m key with
  | some v => (v, m)
  | none => (⟨none, none⟩, Registry.insert m key ⟨none, none⟩)

/-- What the code uses of the owning `Rpc`: `maxPacketSize()`, the DNS cache
reached through `RpcPrivate::getPrivateHelper`, and `preparePeer`, of which
the model keeps whether the returned peer is non-null. -/
structure Rpc where
  maxPacketSize : Nat
  dnsCache : Nat
  preparePeer : DataChannel → QString → QString → Bool

/-- The fault of dereferencing a null `QPointer<Rpc>`. -/
inductive Fault where
  | nullRpc
  deriving DecidableEq, Repr

/-- `Transport::setupChannel(request, channel)`. -/
def Transport.setupChannel (rpc : Option Rpc) (request : SocketLike) (channel : DataChannel) :
    DataChannel :=
  match rpc with
  | none => channel
  | some r =>
    let channel := { channel with maxPacketSize := some r.maxPacketSize }
    match request.ssl with
    | none => channel
    | some cert =>
      let certPEM := cert.pem
      let certHash := cert.sha256
      if !certPEM.isEmpty && !certHash.isEmpty then
        (channel.setProperty "peer_certificate" certPEM).setProperty
          "peer_certificate_hash" certHash
      else channel

/-- One call of `Rpc::preparePeer(channel, name, address)`, with its result:
`peer` tells whether the returned peer is non-null. -/
structure PreparePeerCall where
  channel : DataChannel
  name : QString
  address : QString
  peer : Bool
  deriving DecidableEq, Repr

/-- The state a server handler works on: the accepted stream, the registry of
the transport and the calls made to `Rpc::preparePeer` so far. -/
structure World where
  io : StreamIO
  rawConnections : Registry
  preparePeerCalls : List PreparePeerCall
  deriving DecidableEq, Repr

/-- The address of the peer of an accepted stream, from a template with the
place markers `%1` and `%2`; the host of an IPv6 peer is put in brackets. -/
def peerAddressText (template : QString) (request : SocketLike) : QString :=
  let address :=
    if request.peerAddress.isIPv6 then
      arg template (arg "[%1]".toList request.peerAddress.text)
    else
      arg template request.peerAddress.text
  arg address (number request.peerPort)

/-! ## The server side of the stream transports -/

/-- `TcpTransport::handleRequest(request)`, shared by the TCP, SSL, KCP and
KCP+SSL transports.  `rpc` is the back-reference when the handler starts and
`rpcLater` what it has become once the two magic bytes have been read; `now`
is `QDateTime::currentDateTime()`. -/
def TcpTransport.handleRequest (t : TransportKind) (rpc rpcLater : Option Rpc) (now : Nat)
    (request : SocketLike) (w : World) : Except Fault World :=
  match rpc with
  | none => .ok w
  | some _ =>
    let io := setLowDelay w.io
    let r := recvall 2 io
    let header := r.1
    if header = channelMagic then
      let channel := Transport.setupChannel rpcLater request (SocketChannel request .negative)
      let address := peerAddressText (Lafrpc.getAddressTemplate t) request
      match rpcLater with
      | none => .error .nullRpc
      | some live =>
        let peer := live.preparePeer channel [] address
        .ok { w with io := r.2,
                     preparePeerCalls := w.preparePeerCalls ++ [⟨channel, [], address, peer⟩] }
    else if header = rawSocketMagic then
      let c := recvall 16 r.2
      let connectionId := c.1
      let s := sendall rawSocketAck c.2
      if s.1 ≠ 2 then
        .ok { w with io := s.2 }
      else
        .ok { w with
              io := s.2,
              rawConnections := Registry.insert w.rawConnections connectionId ⟨some request, some now⟩ }
    else
      .ok { w with io := r.2 }

/-- `TcpTransport::takeRawSocket(connectionId)`: the stream of the entry and
the registry after the call. -/
def TcpTransport.takeRawSocket (rawConnections : Registry) (connectionId : QByteArray) :
    Option SocketLike × Registry :=
  let r := Registry.subscript rawConnections connectionId
  (r.1.connection, r.2)

/-- `HttpTransport::takeRawSocket(connectionId)`. -/
def HttpTransport.takeRawSocket (rawConnections : Registry) (connectionId : QByteArray) :
    Option SocketLike × Registry :=
  let r := Registry.subscript rawConnections connectionId
  (r.1.connection, r.2)

/-! ## The client side of the stream transports -/

/-- The virtual `createConnection(host, port, dnsCache)`: the new stream with
its state, or null. -/
abbrev CreateConnection := QString → Nat → Nat → Option (SocketLike × StreamIO)

/-- `RpcPrivate::getPrivateHelper(rpc.data())->dnsCache`: the DNS cache is read
through the pointer to the `Rpc`, which is null once the `Rpc` is gone. -/
def dnsCacheOf (rpc : Option Rpc) : Except Fault Nat :=
  match rpc with
  | none => .error .nullRpc
  | some r => .ok r.dnsCache

/-- `TcpTransport::connect(address, timeout)`: the channel, with the state of
its stream, or null.  The locals `host` and `port` start as the empty string
and `0`. -/
def TcpTransport.connect (t : TransportKind) (qurl : QString → QUrl)
    (createConnection : CreateConnection) (rpc : Option Rpc) (address : QString)
    (timeout : Rat) : Except Fault (Option (DataChannel × StreamIO)) :=
  let _timeout := if timeout = 0 then 5 else timeout
  let p := TcpTransport.parseAddress t qurl address [] 0
  if !p.ok then
    .ok none
  else
    match dnsCacheOf rpc with
    | .error e => .error e
    | .ok dnsCache =>
      match createConnection p.host p.port dnsCache with
      | none => .ok none
      | some (request, io) =>
        let io := setLowDelay io
        let s := sendall channelMagic io
        if s.1 ≠ 2 then
          .ok none
        else
          .ok (some (Transport.setupChannel rpc request (SocketChannel request .positive), s.2))

/-- The result of `makeRawSocket`: the returned stream, the output parameter
`connectionId` and the state of the stream that was opened, if any. -/
structure RawSocketResult where
  stream : Option SocketLike
  connectionId : QByteArray
  io : Option StreamIO
  deriving DecidableEq, Repr

/-- The handshake that `makeRawSocket` runs on a stream it has opened;
`random` is the value of `randomBytes(16)`. -/
def rawSocketHandshake (random : QByteArray) (request : SocketLike) (io : StreamIO) :
    RawSocketResult :=
  let connectionId := random
  let packet := rawSocketMagic ++ connectionId
  let s := sendall packet io
  if s.1 ≠ (packet.length : Int) then
    ⟨none, connectionId, some s.2⟩
  else
    let r := recvall 2 s.2
    if r.1 ≠ rawSocketAck then
      ⟨none, connectionId, some r.2⟩
    else
      ⟨some request, connectionId, some r.2⟩

/-- `TcpTransport::makeRawSocket(address, connectionId)`. -/
def TcpTransport.makeRawSocket (t : TransportKind) (qurl : QString → QUrl)
    (createConnection : CreateConnection) (rpc : Option Rpc) (random : QByteArray)
    (address : QString) (connectionId : QByteArray) : Except Fault RawSocketResult :=
  let p := TcpTransport.parseAddress t qurl address [] 0
  if !p.ok then
    .ok ⟨none, connectionId, none⟩
  else
    match dnsCacheOf rpc with
    | .error e => .error e
    | .ok dnsCache =>
      match createConnection p.host p.port dnsCache with
      | none => .ok ⟨none, connectionId, none⟩
      | some (request, io) => .ok (rawSocketHandshake random request io)

/-! ## The HTTP transport -/

/-- The bytes of a C string literal. -/
def bytes (s : String) : QByteArray := s.toList.map Char.toNat

/-- `QByteArray::toLower()`: the upper-case ASCII letters are made lower-case.
(A Latin-1 lowering changes further bytes above `0x7f`, none of them into an
ASCII letter, so that a comparison with an ASCII word is not affected.) -/
def toLower (b : QByteArray) : QByteArray :=
  b.map fun c => if 65 ≤ c ∧ c ≤ 90 then c + 32 else c

/-- `qtng::SwitchProtocol`. -/
def SwitchProtocol : Nat := 101

/-- `qtng::NotFound`. -/
def NotFound : Nat := 404

/-- `qtng::ServiceUnavailable`. -/
def ServiceUnavailable : Nat := 503

/-- What a handler asks of the HTTP layer it inherits from
`qtng::SimpleHttpRequestHandler`. -/
inductive HttpEvent where
  | sendError (status : Nat)
  | sendResponse (status : Nat)
  | baseDoPOST
  deriving DecidableEq, Repr

/-- A `LafrpcHttpRequestHandler` with the state it works on: the accepted
stream `request`, the registry of its transport and the calls to
`preparePeer` (the fields of `World`), its members `closeRequest` and
`closeConnection`, and the replies it has asked the HTTP layer to send. -/
structure LafrpcHttpRequestHandler extends World where
  closeRequest : Bool
  closeConnection : Bool
  replies : List HttpEvent
  deriving DecidableEq, Repr

/-- The constructor `LafrpcHttpRequestHandler()`, which sets `closeRequest` to
true. -/
def LafrpcHttpRequestHandler.create (w : World) : LafrpcHttpRequestHandler :=
  { w with closeRequest := true, closeConnection := false, replies := [] }

/-- The address template of an HTTP peer: by `server->isSecure()`. -/
def httpAddressTemplate (secure : Bool) : QString :=
  if secure then "https://%1:%2".toList else "http://%1:%2".toList

/-- `LafrpcHttpRequestHandler::doPOST()`.  `rpc` is the back-reference at the
check that precedes the reply and `rpcLater` what it has become once the two
magic bytes have been read; `connectionHeader` and `upgradeHeader` are
`header(ConnectionHeader)` and `header(UpgradeHeader)`, `endHeaderOk` is the
result of `endHeader()` and `secure` that of `server->isSecure()`. -/
def LafrpcHttpRequestHandler.doPOST (rpc rpcLater : Option Rpc) (path rpcPath : QString)
    (connectionHeader upgradeHeader : QByteArray) (endHeaderOk secure : Bool) (now : Nat)
    (request : SocketLike) (h : LafrpcHttpRequestHandler) : LafrpcHttpRequestHandler :=
  if path ≠ rpcPath then
    { h with replies := h.replies ++ [.baseDoPOST] }
  else if toLower connectionHeader ≠ bytes "upgrade" then
    { h with replies := h.replies ++ [.sendError NotFound] }
  else if toLower upgradeHeader ≠ bytes "lafrpc" then
    { h with replies := h.replies ++ [.sendError NotFound] }
  else
    match rpc with
    | none => { h with replies := h.replies ++ [.sendError ServiceUnavailable] }
    | some _ =>
      let h := { h with closeConnection := true,
                        replies := h.replies ++ [.sendResponse SwitchProtocol] }
      if !endHeaderOk then
        h
      else
        let io := setLowDelay h.io
        let r := recvall 2 io
        let rpcHeader := r.1
        if rpcHeader = channelMagic then
          match rpcLater with
          | none => { h with io := r.2 }
          | some live =>
            let channel :=
              Transport.setupChannel rpcLater request (SocketChannel request .negative)
            let address := peerAddressText (httpAddressTemplate secure) request
            let peer := live.preparePeer channel [] address
            let h := { h with io := r.2,
                              preparePeerCalls :=
                                h.preparePeerCalls ++ [⟨channel, [], address, peer⟩] }
            if peer then { h with closeRequest := false } else h
        else if rpcHeader = rawSocketMagic then
          let c := recvall 16 r.2
          let connectionId := c.1
          let s := sendall rawSocketAck c.2
          if s.1 ≠ 2 then
            { h with io := s.2 }
          else
            { h with
              io := s.2,
              rawConnections :=
                Registry.insert h.rawConnections connectionId ⟨some request, some now⟩,
              closeRequest := false }
        else
          { h with io := r.2 }

/-- The result of `tryToHandleMagicCode`: the returned bytes, the output
parameter `done` and the handler after the call. -/
structure MagicCodeResult where
  bytes : QByteArray
  done : Bool
  handler : LafrpcHttpRequestHandler
  deriving DecidableEq, Repr

/-- `LafrpcHttpRequestHandler::tryToHandleMagicCode(done)`.  `rpc` is the
back-reference once the two magic bytes have been read. -/
def LafrpcHttpRequestHandler.tryToHandleMagicCode (rpc : Option Rpc) (secure : Bool) (now : Nat)
    (request : SocketLike) (h : LafrpcHttpRequestHandler) : MagicCodeResult :=
  let r := recvall 2 h.io
  let rpcHeader := r.1
  if rpcHeader = channelMagic then
    let h := { h with io := r.2, closeConnection := true }
    match rpc with
    | none => ⟨[], true, h⟩
    | some live =>
      let channel := Transport.setupChannel rpc request (SocketChannel request .negative)
      let address := peerAddressText (httpAddressTemplate secure) request
      let peer := live.preparePeer channel [] address
      let h := { h with preparePeerCalls := h.preparePeerCalls ++ [⟨channel, [], address, peer⟩] }
      if peer then ⟨[], true, { h with closeRequest := false }⟩ else ⟨[], true, h⟩
  else if rpcHeader = rawSocketMagic then
    let c := recvall 16 r.2
    let connectionId := c.1
    let s := sendall rawSocketAck c.2
    if s.1 ≠ 2 then
      ⟨[], false, { h with io := s.2 }⟩
    else
      ⟨[], true,
        { h with
          io := s.2,
          rawConnections :=
            Registry.insert h.rawConnections connectionId ⟨some request, some now⟩,
          closeRequest := false }⟩
  else
    ⟨rpcHeader, false, { h with io := r.2 }⟩

/-- A `qtng::HttpRequest` as `httpConnect` builds it. -/
structure HttpRequest where
  method : String
  url : QString
  streamResponse : Bool
  headers : List (String × String)
  deriving DecidableEq, Repr

/-- A `qtng::HttpResponse` through what `httpConnect` reads: `isOk()`,
`statusCode()` and the result of `takeStream(&leftBytes)`. -/
structure HttpResponse where
  isOk : Bool
  statusCode : Nat
  stream : Option (SocketLike × StreamIO)
  leftBytes : QByteArray
  deriving DecidableEq, Repr

/-- `httpConnect(session, address)`; `send` is `session.send`. -/
def httpConnect (send : HttpRequest → HttpResponse) (address : QString) :
    Option (SocketLike × StreamIO) :=
  let request : HttpRequest :=
    ⟨"POST", address, true, [("Connection", "Upgrade"), ("Upgrade", "lafrpc")]⟩
  let response := send request
  if !response.isOk then
    none
  else if response.statusCode ≠ SwitchProtocol then
    none
  else
    match response.stream with
    | none => none
    | some (stream, io) =>
      if !response.leftBytes.isEmpty then none
      else some (stream, setLowDelay io)

/-- `HttpTransport::connect(address, timeout)`: the channel, with the state of
its stream, or null. -/
def HttpTransport.connect (send : HttpRequest → HttpResponse) (rpc : Option Rpc)
    (address : QString) (_timeout : Rat) : Option (DataChannel × StreamIO) :=
  match httpConnect send address with
  | none => none
  | some (stream, io) =>
    let s := sendall channelMagic io
    if s.1 ≠ 2 then
      none
    else
      some (Transport.setupChannel rpc stream (SocketChannel stream .positive), s.2)

/-- `HttpTransport::makeRawSocket(address, connectionId)`. -/
def HttpTransport.makeRawSocket (send : HttpRequest → HttpResponse) (random : QByteArray)
    (address : QString) (connectionId : QByteArray) : RawSocketResult :=
  match httpConnect send address with
  | none => ⟨none, connectionId, none⟩
  | some (stream, io) => rawSocketHandshake random stream io

/-! ## What has become of an accepted stream -/

/-- The values of `QUrl` at the addresses used in the examples below: the
host of an IPv6 literal is returned without its brackets, an authority that
starts with a colon has an empty host, and `tcp://::1:80`, whose host has
colons outside brackets, is not a valid URL.  Any other string is mapped to
an invalid URL; no example depends on that. -/
def sampleUrl (address : QString) : QUrl :=
  if address = "tcp://127.0.0.1:9000".toList then
    ⟨true, "127.0.0.1".toList, 9000, by decide, by decide⟩
  else if address = "tcp://[::1]:80".toList then
    ⟨true, "::1".toList, 80, by decide, by decide⟩
  else if address = "tcp://::1:80".toList then
    ⟨false, [], -1, by decide, by decide⟩
  else if address = "tcp://:80".toList then
    ⟨true, [], 80, by decide, by decide⟩
  else if address = "ssl+kcp://example.org:7000".toList then
    ⟨true, "example.org".toList, 7000, by decide, by decide⟩
  else if address = "kcp+ssl://example.org:7000".toList then
    ⟨true, "example.org".toList, 7000, by decide, by decide⟩
  else
    ⟨false, [], -1, by decide, by decide⟩

/-- A plain TCP stream from `127.0.0.1:50000`. -/
def sampleStream : SocketLike := ⟨1, none, ⟨false, "127.0.0.1".toList⟩, 50000⟩

/-- A stream state on which nothing has happened yet: the peer delivers
`incoming` and the calls of `sendall` return `sendResults`. -/
def freshStream (incoming : QByteArray) (sendResults : List Int) : StreamIO :=
  ⟨incoming, sendResults, [], [], false, false⟩

/-- An `Rpc` whose `preparePeer` returns a peer exactly when `accepts`. -/
def sampleRpc (accepts : Bool) : Rpc := ⟨65536, 0, fun _ _ _ => accepts⟩

/-- An HTTP session whose server answers every request with
`101 Switching Protocols` and hands over `sampleStream`, on which one
`sendall` of two bytes will succeed. -/
def sampleSend : HttpRequest → HttpResponse :=
  fun _ => ⟨true, SwitchProtocol, some (sampleStream, freshStream [] [2]), []⟩

/-- A `createConnection` that always opens `sampleStream`. -/
def sampleCreateConnection : CreateConnection :=
  fun _ _ _ => some (sampleStream, freshStream [] [2])

/-- A sixteen-byte connection id. -/
def sampleId : QByteArray := [1, 2, 3, 4, 5, 6, 7, 8, 9, 10, 11, 12, 13, 14, 15, 16]

/-- Another plain TCP stream. -/
def otherStream : SocketLike := ⟨2, none, ⟨false, "127.0.0.1".toList⟩, 50001⟩

/-- A TLS stream whose peer presented a certificate with a two-byte PEM
encoding and a two-byte digest. -/
def tlsStream : SocketLike :=
  ⟨3, some ⟨[0x2d, 0x2d], [0xab, 0xcd]⟩, ⟨false, "127.0.0.1".toList⟩, 50002⟩

/-- A registry that already holds `otherStream` under `sampleId` and under
the one-byte key `09`. -/
def sampleRegistry : Registry :=
  [(sampleId, ⟨some otherStream, some 1⟩), ([9], ⟨some otherStream, some 2⟩)]

/-- A handler on a stream whose peer sends `33 74`, `sampleId` and one more
byte, with `sampleRegistry` as the registry of its transport. -/
def sampleHandler : LafrpcHttpRequestHandler :=
  LafrpcHttpRequestHandler.create
    ⟨freshStream (rawSocketMagic ++ sampleId ++ [0xaa]) [2], sampleRegistry, []⟩

end Lafrpc

/-! ## Theorems -/

namespace Lafrpc

/-! ### Address parsing -/

theorem toQuint16_of_pos (u : QUrl) (h : 0 < u.port) : (toQuint16 u.port : Int) = u.port := by
  have h1 := u.port_le
  unfold toQuint16
  rw [Int.emod_eq_of_lt (by omega) (by omega)]
  omega

/-- When `parseAddress` succeeds, and what its outputs are then. -/
theorem parseAddress_ok_spec (t : TransportKind) (qurl : QString → QUrl)
    (a host : QString) (port : Nat) :
    ((TcpTransport.parseAddress t qurl a host port).ok = true ↔
      (canHandle t a = true ∧ (qurl a).isValid = true ∧ (qurl a).host ≠ [] ∧
        (qurl a).port ≠ -1 ∧ 0 < (qurl a).port)) ∧
    ((TcpTransport.parseAddress t qurl a host port).ok = true →
      (TcpTransport.parseAddress t qurl a host port).host = (qurl a).host ∧
      ((TcpTransport.parseAddress t qurl a host port).port : Int) = (qurl a).port) := by
  unfold TcpTransport.parseAddress
  by_cases hc : canHandle t a = true
  · by_cases hv : (qurl a).isValid = true
    · by_cases hp : 0 < (qurl a).port
      · have hq := toQuint16_of_pos (qurl a) hp
        have hq0 : 0 < toQuint16 (qurl a).port := by omega
        have hne : (qurl a).port ≠ -1 := by omega
        have hnp : ¬ (qurl a).port ≤ 0 := by omega
        by_cases hh : (qurl a).host = []
        · simp [hc, hv, hnp, hh]
        · simp [hc, hv, hnp, hh, hq0, hq, hp, hne]
      · have hnp : (qurl a).port ≤ 0 := by omega
        simp [hc, hv, hnp, hp]
    · simp [hc, hv]
  · simp [hc]

/-- C1: `parseAddress` returns true exactly when `canHandle` accepts the
address, the parsed URL is valid, its host is not empty and its port is
present and strictly positive; the outputs are then the host and the port of
the URL. -/
theorem parseAddress_true_iff (t : TransportKind) (qurl : QString → QUrl)
    (a host : QString) (port : Nat) :
    ((TcpTransport.parseAddress t qurl a host port).ok = true ↔
      (canHandle t a = true ∧ (qurl a).isValid = true ∧ (qurl a).host ≠ [] ∧
        (qurl a).port ≠ -1 ∧ 0 < (qurl a).port)) ∧
    ((TcpTransport.parseAddress t qurl a host port).ok = true →
      (TcpTransport.parseAddress t qurl a host port).host = (qurl a).host ∧
      ((TcpTransport.parseAddress t qurl a host port).port : Int) = (qurl a).port) :=
  parseAddress_ok_spec t qurl a host port

/-- Witness of `parseAddress_true_iff`, on `tcp://127.0.0.1:9000`. -/
theorem parseAddress_true_iff_witness :
    (TcpTransport.parseAddress .tcp sampleUrl "tcp://127.0.0.1:9000".toList [] 0).ok = true ∧
    (TcpTransport.parseAddress .tcp sampleUrl "tcp://127.0.0.1:9000".toList [] 0).host
      = (sampleUrl "tcp://127.0.0.1:9000".toList).host ∧
    ((TcpTransport.parseAddress .tcp sampleUrl "tcp://127.0.0.1:9000".toList [] 0).port : Int)
      = (sampleUrl "tcp://127.0.0.1:9000".toList).port :=
  ⟨by decide,
    (parseAddress_true_iff .tcp sampleUrl "tcp://127.0.0.1:9000".toList [] 0).2 (by decide)⟩

/-- C2, as stated, fails: on `tcp://:80`, a valid URL with port 80 and an
empty host, `parseAddress` returns false and has overwritten the output
parameter `host`, which held `old`, with the empty string. -/
theorem parseAddress_false_overwrites_host :
    (TcpTransport.parseAddress .tcp sampleUrl "tcp://:80".toList "old".toList 7).ok = false ∧
    (TcpTransport.parseAddress .tcp sampleUrl "tcp://:80".toList "old".toList 7).host
      ≠ "old".toList := by
  decide

/-- C2, amended: when `parseAddress` returns false, `port` is left as it was;
`host` is left as it was, except when the address is handled and its URL is
valid with a positive port, in which case the host of the URL is empty and
`host` has been set to that empty string. -/
theorem parseAddress_false_outputs (t : TransportKind) (qurl : QString → QUrl)
    (a host : QString) (port : Nat)
    (h : (TcpTransport.parseAddress t qurl a host port).ok = false) :
    (TcpTransport.parseAddress t qurl a host port).port = port ∧
    (¬ (canHandle t a = true ∧ (qurl a).isValid = true ∧ 0 < (qurl a).port) →
      (TcpTransport.parseAddress t qurl a host port).host = host) ∧
    ((canHandle t a = true ∧ (qurl a).isValid = true ∧ 0 < (qurl a).port) →
      (qurl a).host = [] ∧ (TcpTransport.parseAddress t qurl a host port).host = []) := by
  unfold TcpTransport.parseAddress at h ⊢
  by_cases hc : canHandle t a = true
  · by_cases hv : (qurl a).isValid = true
    · by_cases hp : 0 < (qurl a).port
      · have hq := toQuint16_of_pos (qurl a) hp
        have hq0 : 0 < toQuint16 (qurl a).port := by omega
        have hnp : ¬ (qurl a).port ≤ 0 := by omega
        by_cases hh : (qurl a).host = []
        · simp [hc, hv, hnp, hh, hp]
        · simp [hc, hv, hnp, hh, hq0] at h
      · have hnp : (qurl a).port ≤ 0 := by omega
        simp [hc, hv, hnp, hp]
    · simp [hc, hv]
  · simp [hc]

/-- Witness of `parseAddress_false_outputs`, on the address `tcp://:80`. -/
theorem parseAddress_false_outputs_witness :
    (TcpTransport.parseAddress .tcp sampleUrl "tcp://:80".toList "old".toList 7).port = 7 ∧
    (¬ (canHandle .tcp "tcp://:80".toList = true ∧
        (sampleUrl "tcp://:80".toList).isValid = true ∧
        0 < (sampleUrl "tcp://:80".toList).port) →
      (TcpTransport.parseAddress .tcp sampleUrl "tcp://:80".toList "old".toList 7).host
        = "old".toList) ∧
    ((canHandle .tcp "tcp://:80".toList = true ∧
        (sampleUrl "tcp://:80".toList).isValid = true ∧
        0 < (sampleUrl "tcp://:80".toList).port) →
      (sampleUrl "tcp://:80".toList).host = [] ∧
      (TcpTransport.parseAddress .tcp sampleUrl "tcp://:80".toList "old".toList 7).host = []) :=
  parseAddress_false_outputs .tcp sampleUrl "tcp://:80".toList "old".toList 7 (by decide)

/-- C4: when the first two bytes read from an accepted stream (or the fewer
bytes that a short read returns) are neither `4E 67` nor `33 74`, then
`handleRequest`, `doPOST` and `tryToHandleMagicCode` each leave
`rawConnections` as it was and call `preparePeer` not once. -/
theorem unknown_magic_no_effect (t : TransportKind) (rpc rpcLater : Option Rpc)
    (path rpcPath : QString) (connectionHeader upgradeHeader : QByteArray)
    (endHeaderOk secure : Bool) (now : Nat) (request : SocketLike)
    (h : LafrpcHttpRequestHandler)
    (h1 : h.io.incoming.take 2 ≠ channelMagic) (h2 : h.io.incoming.take 2 ≠ rawSocketMagic) :
    (∃ w, TcpTransport.handleRequest t rpc rpcLater now request h.toWorld = .ok w ∧
      w.rawConnections = h.rawConnections ∧ w.preparePeerCalls = h.preparePeerCalls) ∧
    ((LafrpcHttpRequestHandler.doPOST rpc rpcLater path rpcPath connectionHeader upgradeHeader
        endHeaderOk secure now request h).rawConnections = h.rawConnections ∧
      (LafrpcHttpRequestHandler.doPOST rpc rpcLater path rpcPath connectionHeader upgradeHeader
        endHeaderOk secure now request h).preparePeerCalls = h.preparePeerCalls) ∧
    ((LafrpcHttpRequestHandler.tryToHandleMagicCode rpcLater secure now request
        h).handler.rawConnections = h.rawConnections ∧
      (LafrpcHttpRequestHandler.tryToHandleMagicCode rpcLater secure now request
        h).handler.preparePeerCalls = h.preparePeerCalls) := by
  refine ⟨?_, ?_, ?_⟩
  · cases rpc with
    | none => exact ⟨h.toWorld, rfl, rfl, rfl⟩
    | some r =>
      simp [TcpTransport.handleRequest, recvall, setLowDelay, h1, h2]
  · unfold LafrpcHttpRequestHandler.doPOST
    by_cases hp : path = rpcPath
    · by_cases hc : toLower connectionHeader = bytes "upgrade"
      · by_cases hu : toLower upgradeHeader = bytes "lafrpc"
        · cases rpc with
          | none => simp [hp, hc, hu]
          | some r =>
            cases endHeaderOk <;> simp [hp, hc, hu, recvall, setLowDelay, h1, h2]
        · simp [hp, hc, hu]
      · simp [hp, hc]
    · simp [hp]
  · simp [LafrpcHttpRequestHandler.tryToHandleMagicCode, recvall, h1, h2]

/-- Witness of `unknown_magic_no_effect`: the peer sends `00 00`. -/
theorem unknown_magic_no_effect_witness :
    (∃ w, TcpTransport.handleRequest .tcp (some (sampleRpc true)) (some (sampleRpc true)) 0
        sampleStream (LafrpcHttpRequestHandler.create ⟨freshStream [0, 0] [2], [], []⟩).toWorld
        = .ok w ∧
      w.rawConnections = (LafrpcHttpRequestHandler.create
        ⟨freshStream [0, 0] [2], [], []⟩).rawConnections ∧
      w.preparePeerCalls = (LafrpcHttpRequestHandler.create
        ⟨freshStream [0, 0] [2], [], []⟩).preparePeerCalls) ∧
    ((LafrpcHttpRequestHandler.doPOST (some (sampleRpc true)) (some (sampleRpc true))
        "/rpc".toList "/rpc".toList (bytes "Upgrade") (bytes "lafrpc") true false 0 sampleStream
        (LafrpcHttpRequestHandler.create ⟨freshStream [0, 0] [2], [], []⟩)).rawConnections
        = (LafrpcHttpRequestHandler.create ⟨freshStream [0, 0] [2], [], []⟩).rawConnections ∧
      (LafrpcHttpRequestHandler.doPOST (some (sampleRpc true)) (some (sampleRpc true))
        "/rpc".toList "/rpc".toList (bytes "Upgrade") (bytes "lafrpc") true false 0 sampleStream
        (LafrpcHttpRequestHandler.create ⟨freshStream [0, 0] [2], [], []⟩)).preparePeerCalls
        = (LafrpcHttpRequestHandler.create ⟨freshStream [0, 0] [2], [], []⟩).preparePeerCalls) ∧
    ((LafrpcHttpRequestHandler.tryToHandleMagicCode (some (sampleRpc true)) false 0 sampleStream
        (LafrpcHttpRequestHandler.create ⟨freshStream [0, 0] [2], [], []⟩)).handler.rawConnections
        = (LafrpcHttpRequestHandler.create ⟨freshStream [0, 0] [2], [], []⟩).rawConnections ∧
      (LafrpcHttpRequestHandler.tryToHandleMagicCode (some (sampleRpc true)) false 0 sampleStream
        (LafrpcHttpRequestHandler.create ⟨freshStream [0, 0] [2], [], []⟩)).handler.preparePeerCalls
        = (LafrpcHttpRequestHandler.create ⟨freshStream [0, 0] [2], [], []⟩).preparePeerCalls) :=
  unknown_magic_no_effect .tcp (some (sampleRpc true)) (some (sampleRpc true))
    "/rpc".toList "/rpc".toList (bytes "Upgrade") (bytes "lafrpc") true false 0 sampleStream
    (LafrpcHttpRequestHandler.create ⟨freshStream [0, 0] [2], [], []⟩) (by decide) (by decide)

/-! ### The raw-socket handshake -/

/-- C5, the server side at a short connection id: the peer sends `33 74` and
only three further bytes before it stops sending, and `sendall` succeeds.
`handleRequest`, `doPOST` and `tryToHandleMagicCode` have then received five
bytes, not eighteen, and each of them still sends the acknowledgement and
inserts the stream into `rawConnections`, under the three-byte key. -/
theorem short_connection_id_is_adopted :
    (TcpTransport.handleRequest .tcp (some (sampleRpc true)) (some (sampleRpc true)) 42
        sampleStream ⟨freshStream [0x33, 0x74, 1, 2, 3] [2], [], []⟩
      = .ok ⟨⟨[], [], [0x33, 0x74, 1, 2, 3], [rawSocketAck], true, false⟩,
             [([1, 2, 3], ⟨some sampleStream, some 42⟩)], []⟩) ∧
    (LafrpcHttpRequestHandler.doPOST (some (sampleRpc true)) (some (sampleRpc true))
        "/rpc".toList "/rpc".toList (bytes "Upgrade") (bytes "lafrpc") true false 42 sampleStream
        (LafrpcHttpRequestHandler.create ⟨freshStream [0x33, 0x74, 1, 2, 3] [2], [], []⟩)
      = ⟨⟨⟨[], [], [0x33, 0x74, 1, 2, 3], [rawSocketAck], true, false⟩,
             [([1, 2, 3], ⟨some sampleStream, some 42⟩)], []⟩,
          false, true, [.sendResponse SwitchProtocol]⟩) ∧
    (LafrpcHttpRequestHandler.tryToHandleMagicCode (some (sampleRpc true)) false 42 sampleStream
        (LafrpcHttpRequestHandler.create ⟨freshStream [0x33, 0x74, 1, 2, 3] [2], [], []⟩)
      = ⟨[], true,
          ⟨⟨⟨[], [], [0x33, 0x74, 1, 2, 3], [rawSocketAck], false, false⟩,
             [([1, 2, 3], ⟨some sampleStream, some 42⟩)], []⟩,
          false, false, []⟩⟩) := by
  refine ⟨rfl, ?_, ?_⟩ <;> decide

/-! ### A transport whose `Rpc` is gone -/

/-- C6 at a transport whose `rpc` is null.  `HttpTransport::connect` never
tests `rpc`: when the upgrade and the two-byte send succeed it returns a
channel, which `setupChannel` has left without a packet size.
`TcpTransport::connect` and `TcpTransport::makeRawSocket` on an address that
parses read the DNS cache through the null pointer. -/
theorem null_rpc_connect :
    (HttpTransport.connect sampleSend none "http://127.0.0.1:8080/rpc".toList 0
      = some (⟨sampleStream, .positive, none, []⟩,
              ⟨[], [], [], [channelMagic], true, false⟩)) ∧
    (TcpTransport.connect .tcp sampleUrl sampleCreateConnection none
        "tcp://127.0.0.1:9000".toList 0 = .error .nullRpc) ∧
    (TcpTransport.makeRawSocket .tcp sampleUrl sampleCreateConnection none sampleId
        "tcp://127.0.0.1:9000".toList [] = .error .nullRpc) := by
  refine ⟨?_, ?_, ?_⟩
  · decide
  · rfl
  · rfl

/-! ### What has become of an accepted stream -/

theorem Registry.find_insert_self (key : QByteArray) (value : RawSocket) :
    ∀ m : Registry, Registry.find (Registry.insert m key value) key = some value
  | [] => by simp [Registry.insert, Registry.find]
  | (k, v) :: m => by
    by_cases hk : k = key
    · simp [Registry.insert, Registry.find, hk]
    · simp [Registry.insert, Registry.find, hk, Registry.find_insert_self key value m]

theorem Registry.find_insert_other (key other : QByteArray) (value : RawSocket)
    (h : other ≠ key) :
    ∀ m : Registry, Registry.find (Registry.insert m key value) other = Registry.find m other
  | [] => by
    have h' : ¬ key = other := fun e => h e.symm
    simp [Registry.insert, Registry.find, h']
  | (k, v) :: m => by
    by_cases hk : k = key
    · have h' : ¬ key = other := fun e => h e.symm
      subst hk
      simp [Registry.insert, Registry.find, h']
    · by_cases ho : k = other
      · subst ho
        simp [Registry.insert, Registry.find, h]
      · simp [Registry.insert, Registry.find, hk, ho,
          Registry.find_insert_other key other value h m]

/-- After an insertion under `key`, `takeRawSocket(key)` returns the inserted
stream, and neither the insertion nor the take changes what is stored under
another key. -/
theorem take_after_insert (m : Registry) (key : QByteArray) (stream : SocketLike)
    (ts : Option Nat) :
    (TcpTransport.takeRawSocket (Registry.insert m key ⟨some stream, ts⟩) key).1
      = some stream ∧
    (HttpTransport.takeRawSocket (Registry.insert m key ⟨some stream, ts⟩) key).1
      = some stream ∧
    ∀ other, other ≠ key →
      Registry.find (Registry.insert m key ⟨some stream, ts⟩) other = Registry.find m other ∧
      Registry.find
        (TcpTransport.takeRawSocket (Registry.insert m key ⟨some stream, ts⟩) key).2 other
        = Registry.find m other ∧
      Registry.find
        (HttpTransport.takeRawSocket (Registry.insert m key ⟨some stream, ts⟩) key).2 other
        = Registry.find m other := by
  have hf := Registry.find_insert_self key ⟨some stream, ts⟩ m
  refine ⟨?_, ?_, ?_⟩
  · simp [TcpTransport.takeRawSocket, Registry.subscript, hf]
  · simp [HttpTransport.takeRawSocket, Registry.subscript, hf]
  · intro other ho
    have hother := Registry.find_insert_other key other ⟨some stream, ts⟩ ho m
    simp [TcpTransport.takeRawSocket, HttpTransport.takeRawSocket, Registry.subscript, hf,
      hother]

theorem recv_raw_socket_packet (io : StreamIO) (id rest : QByteArray) (hid : id.length = 16)
    (hin : io.incoming = rawSocketMagic ++ id ++ rest) :
    io.incoming.take 2 = rawSocketMagic ∧ (io.incoming.drop 2).take 16 = id := by
  rw [hin]
  have h16 : (id ++ rest).take 16 = id := by
    rw [List.take_append_of_le_length (by omega)]
    exact List.take_of_length_le (by omega)
  simp [rawSocketMagic, h16]

/-- The registry after a server-side raw-socket handshake that received the
connection id and sent the acknowledgement, in the three entry points. -/
theorem registry_after_handshake (t : TransportKind) (rpc rpcLater : Option Rpc)
    (rpcPath : QString) (connectionHeader upgradeHeader : QByteArray) (secure : Bool)
    (now : Nat) (request : SocketLike) (h : LafrpcHttpRequestHandler)
    (id rest : QByteArray) (more : List Int)
    (hrpc : rpc ≠ none) (hid : id.length = 16)
    (hin : h.io.incoming = rawSocketMagic ++ id ++ rest)
    (hsend : h.io.sendResults = 2 :: more)
    (hc : toLower connectionHeader = bytes "upgrade")
    (hu : toLower upgradeHeader = bytes "lafrpc") :
    (∃ f, TcpTransport.handleRequest t rpc rpcLater now request h.toWorld = .ok f ∧
      f.rawConnections = Registry.insert h.rawConnections id ⟨some request, some now⟩) ∧
    (LafrpcHttpRequestHandler.doPOST rpc rpcLater rpcPath rpcPath connectionHeader upgradeHeader
        true secure now request h).rawConnections
      = Registry.insert h.rawConnections id ⟨some request, some now⟩ ∧
    (LafrpcHttpRequestHandler.tryToHandleMagicCode rpcLater secure now request
        h).handler.rawConnections
      = Registry.insert h.rawConnections id ⟨some request, some now⟩ := by
  obtain ⟨hm, hi⟩ := recv_raw_socket_packet h.io id rest hid hin
  have h12 : rawSocketMagic ≠ channelMagic := by decide
  cases rpc with
  | none => exact absurd rfl hrpc
  | some r =>
    refine ⟨?_, ?_, ?_⟩
    · simp [TcpTransport.handleRequest, recvall, setLowDelay, sendall, hm, hi, h12, hsend]
    · simp [LafrpcHttpRequestHandler.doPOST, recvall, setLowDelay, sendall, hm, hi, h12, hsend,
        hc, hu]
    · simp [LafrpcHttpRequestHandler.tryToHandleMagicCode, recvall, sendall, hm, hi, h12,
        hsend]

/-- C8: after a server-side raw-socket handshake that received the sixteen
bytes `id` on the stream `request` and sent the acknowledgement, in
`handleRequest`, in `doPOST` after the 101 reply or in `tryToHandleMagicCode`,
`takeRawSocket(id)` returns `request`, whatever the registry held before, and
what is stored under any other id is as it was before the handshake, also
after the take. -/
theorem take_after_handshake (t : TransportKind) (rpc rpcLater : Option Rpc)
    (rpcPath : QString) (connectionHeader upgradeHeader : QByteArray) (secure : Bool)
    (now : Nat) (request : SocketLike) (h : LafrpcHttpRequestHandler)
    (id rest : QByteArray) (more : List Int)
    (hrpc : rpc ≠ none) (hid : id.length = 16)
    (hin : h.io.incoming = rawSocketMagic ++ id ++ rest)
    (hsend : h.io.sendResults = 2 :: more)
    (hc : toLower connectionHeader = bytes "upgrade")
    (hu : toLower upgradeHeader = bytes "lafrpc") :
    (∃ f, TcpTransport.handleRequest t rpc rpcLater now request h.toWorld = .ok f ∧
      (TcpTransport.takeRawSocket f.rawConnections id).1 = some request ∧
      ∀ other, other ≠ id →
        Registry.find f.rawConnections other = Registry.find h.rawConnections other ∧
        Registry.find (TcpTransport.takeRawSocket f.rawConnections id).2 other
          = Registry.find h.rawConnections other) ∧
    ((HttpTransport.takeRawSocket (LafrpcHttpRequestHandler.doPOST rpc rpcLater rpcPath rpcPath
        connectionHeader upgradeHeader true secure now request h).rawConnections id).1
        = some request ∧
      ∀ other, other ≠ id →
        Registry.find (LafrpcHttpRequestHandler.doPOST rpc rpcLater rpcPath rpcPath
          connectionHeader upgradeHeader true secure now request h).rawConnections other
          = Registry.find h.rawConnections other ∧
        Registry.find (HttpTransport.takeRawSocket (LafrpcHttpRequestHandler.doPOST rpc rpcLater
          rpcPath rpcPath connectionHeader upgradeHeader true secure now request
          h).rawConnections id).2 other = Registry.find h.rawConnections other) ∧
    ((HttpTransport.takeRawSocket (LafrpcHttpRequestHandler.tryToHandleMagicCode rpcLater secure
        now request h).handler.rawConnections id).1 = some request ∧
      ∀ other, other ≠ id →
        Registry.find (LafrpcHttpRequestHandler.tryToHandleMagicCode rpcLater secure now request
          h).handler.rawConnections other = Registry.find h.rawConnections other ∧
        Registry.find (HttpTransport.takeRawSocket (LafrpcHttpRequestHandler.tryToHandleMagicCode
          rpcLater secure now request h).handler.rawConnections id).2 other
          = Registry.find h.rawConnections other) := by
  obtain ⟨⟨f, hf, hreg⟩, hpost, hmagic⟩ :=
    registry_after_handshake t rpc rpcLater rpcPath connectionHeader upgradeHeader secure now
      request h id rest more hrpc hid hin hsend hc hu
  obtain ⟨t1, t2, t3⟩ := take_after_insert h.rawConnections id request (some now)
  refine ⟨⟨f, hf, ?_, ?_⟩, ⟨?_, ?_⟩, ⟨?_, ?_⟩⟩
  · rw [hreg]; exact t1
  · intro other ho
    rw [hreg]
    exact ⟨(t3 other ho).1, (t3 other ho).2.1⟩
  · rw [hpost]; exact t2
  · intro other ho
    rw [hpost]
    exact ⟨(t3 other ho).1, (t3 other ho).2.2⟩
  · rw [hmagic]; exact t2
  · intro other ho
    rw [hmagic]
    exact ⟨(t3 other ho).1, (t3 other ho).2.2⟩

/-- Witness of `take_after_handshake`: the registry already holds another
stream under the same id. -/
theorem take_after_handshake_witness :
    (∃ f, TcpTransport.handleRequest .tcp (some (sampleRpc true)) (some (sampleRpc true)) 7
        sampleStream sampleHandler.toWorld = .ok f ∧
      (TcpTransport.takeRawSocket f.rawConnections sampleId).1 = some sampleStream ∧
      ∀ other, other ≠ sampleId →
        Registry.find f.rawConnections other = Registry.find sampleHandler.rawConnections other ∧
        Registry.find (TcpTransport.takeRawSocket f.rawConnections sampleId).2 other
          = Registry.find sampleHandler.rawConnections other) ∧
    ((HttpTransport.takeRawSocket (LafrpcHttpRequestHandler.doPOST (some (sampleRpc true))
        (some (sampleRpc true)) "/rpc".toList "/rpc".toList (bytes "Upgrade") (bytes "lafrpc")
        true false 7 sampleStream sampleHandler).rawConnections sampleId).1
        = some sampleStream ∧
      ∀ other, other ≠ sampleId →
        Registry.find (LafrpcHttpRequestHandler.doPOST (some (sampleRpc true))
          (some (sampleRpc true)) "/rpc".toList "/rpc".toList (bytes "Upgrade")
          (bytes "lafrpc") true false 7 sampleStream sampleHandler).rawConnections other
          = Registry.find sampleHandler.rawConnections other ∧
        Registry.find (HttpTransport.takeRawSocket (LafrpcHttpRequestHandler.doPOST
          (some (sampleRpc true)) (some (sampleRpc true)) "/rpc".toList "/rpc".toList
          (bytes "Upgrade") (bytes "lafrpc") true false 7 sampleStream
          sampleHandler).rawConnections sampleId).2 other
          = Registry.find sampleHandler.rawConnections other) ∧
    ((HttpTransport.takeRawSocket (LafrpcHttpRequestHandler.tryToHandleMagicCode
        (some (sampleRpc true)) false 7 sampleStream sampleHandler).handler.rawConnections
        sampleId).1 = some sampleStream ∧
      ∀ other, other ≠ sampleId →
        Registry.find (LafrpcHttpRequestHandler.tryToHandleMagicCode (some (sampleRpc true))
          false 7 sampleStream sampleHandler).handler.rawConnections other
          = Registry.find sampleHandler.rawConnections other ∧
        Registry.find (HttpTransport.takeRawSocket (LafrpcHttpRequestHandler.tryToHandleMagicCode
          (some (sampleRpc true)) false 7 sampleStream sampleHandler).handler.rawConnections
          sampleId).2 other = Registry.find sampleHandler.rawConnections other) :=
  take_after_handshake .tcp (some (sampleRpc true)) (some (sampleRpc true)) "/rpc".toList
    (bytes "Upgrade") (bytes "lafrpc") false 7 sampleStream sampleHandler sampleId [0xaa] []
    (by simp) (by decide) (by decide) (by decide) (by decide) (by decide)

theorem subscript_twice (m : Registry) (id : QByteArray) :
    (Registry.subscript (Registry.subscript m id).2 id).1 = (Registry.subscript m id).1 ∧
    (Registry.find m id = none → (Registry.subscript m id).1 = ⟨none, none⟩) := by
  unfold Registry.subscript
  cases hf : Registry.find m id with
  | some v => simp [hf]
  | none => simp [Registry.find_insert_self]

/-- C9: of two consecutive calls of `takeRawSocket(id)`, on `TcpTransport` and
on `HttpTransport`, the second returns the same stream as the first or null
(in fact always the same); for an id under which the registry holds nothing
both calls return null. -/
theorem take_twice (m : Registry) (id : QByteArray) :
    (((TcpTransport.takeRawSocket (TcpTransport.takeRawSocket m id).2 id).1
        = (TcpTransport.takeRawSocket m id).1 ∨
      (TcpTransport.takeRawSocket (TcpTransport.takeRawSocket m id).2 id).1 = none) ∧
     (Registry.find m id = none →
      (TcpTransport.takeRawSocket m id).1 = none ∧
      (TcpTransport.takeRawSocket (TcpTransport.takeRawSocket m id).2 id).1 = none)) ∧
    (((HttpTransport.takeRawSocket (HttpTransport.takeRawSocket m id).2 id).1
        = (HttpTransport.takeRawSocket m id).1 ∨
      (HttpTransport.takeRawSocket (HttpTransport.takeRawSocket m id).2 id).1 = none) ∧
     (Registry.find m id = none →
      (HttpTransport.takeRawSocket m id).1 = none ∧
      (HttpTransport.takeRawSocket (HttpTransport.takeRawSocket m id).2 id).1 = none)) := by
  obtain ⟨h1, h2⟩ := subscript_twice m id
  unfold TcpTransport.takeRawSocket HttpTransport.takeRawSocket
  simp only [h1, true_or, true_and]
  refine ⟨?_, ?_⟩ <;>
  · intro hn
    rw [h2 hn]
    exact ⟨rfl, rfl⟩

/-- Witness of `take_twice`: an id under which `sampleRegistry` holds nothing. -/
theorem take_twice_witness :
    Registry.find sampleRegistry [7] = none ∧
    ((TcpTransport.takeRawSocket sampleRegistry [7]).1 = none ∧
      (TcpTransport.takeRawSocket (TcpTransport.takeRawSocket sampleRegistry [7]).2 [7]).1
        = none) ∧
    ((HttpTransport.takeRawSocket sampleRegistry [7]).1 = none ∧
      (HttpTransport.takeRawSocket (HttpTransport.takeRawSocket sampleRegistry [7]).2 [7]).1
        = none) :=
  ⟨by decide, (take_twice sampleRegistry [7]).1.2 (by decide),
    (take_twice sampleRegistry [7]).2.2 (by decide)⟩

/-! ### The HTTP upgrade -/

/-- The reply of `doPOST` once the upgrade headers are accepted and `rpc` is
alive: `101 Switching Protocols`, whatever happens afterwards. -/
theorem doPOST_switch (rpcLater : Option Rpc) (live : Rpc) (rpcPath : QString)
    (connectionHeader upgradeHeader : QByteArray) (endHeaderOk secure : Bool) (now : Nat)
    (request : SocketLike) (h : LafrpcHttpRequestHandler)
    (hc : toLower connectionHeader = bytes "upgrade")
    (hu : toLower upgradeHeader = bytes "lafrpc") :
    (LafrpcHttpRequestHandler.doPOST (some live) rpcLater rpcPath rpcPath connectionHeader
      upgradeHeader endHeaderOk secure now request h).replies
      = h.replies ++ [.sendResponse 101] := by
  unfold LafrpcHttpRequestHandler.doPOST
  simp only [hc, hu, ne_eq, not_true_eq_false, if_false, SwitchProtocol]
  cases endHeaderOk with
  | false => simp
  | true =>
    simp only [Bool.not_true, Bool.false_eq_true, if_false]
    split
    · cases rpcLater with
      | none => simp
      | some l =>
        simp only
        split <;> rfl
    · split
      · split <;> rfl
      · rfl

/-- C10: for a POST whose path is the configured `rpcPath`, `doPOST` replies
404 when the lower-cased `Connection` header is not `upgrade` or the
lower-cased `Upgrade` header is not `lafrpc`; otherwise 503 when `rpc` is
null; otherwise 101.  With the 404 and the 503 the stream is left untouched
(nothing is read from it), `rawConnections` is unchanged and `preparePeer` is
not called. -/
theorem doPOST_reply (rpc rpcLater : Option Rpc) (path rpcPath : QString)
    (connectionHeader upgradeHeader : QByteArray) (endHeaderOk secure : Bool) (now : Nat)
    (request : SocketLike) (h : LafrpcHttpRequestHandler) (hpath : path = rpcPath) :
    ((toLower connectionHeader ≠ bytes "upgrade" ∨ toLower upgradeHeader ≠ bytes "lafrpc") →
      LafrpcHttpRequestHandler.doPOST rpc rpcLater path rpcPath connectionHeader upgradeHeader
        endHeaderOk secure now request h
        = { h with replies := h.replies ++ [.sendError 404] }) ∧
    (toLower connectionHeader = bytes "upgrade" → toLower upgradeHeader = bytes "lafrpc" →
      rpc = none →
      LafrpcHttpRequestHandler.doPOST rpc rpcLater path rpcPath connectionHeader upgradeHeader
        endHeaderOk secure now request h
        = { h with replies := h.replies ++ [.sendError 503] }) ∧
    (toLower connectionHeader = bytes "upgrade" → toLower upgradeHeader = bytes "lafrpc" →
      rpc ≠ none →
      (LafrpcHttpRequestHandler.doPOST rpc rpcLater path rpcPath connectionHeader upgradeHeader
        endHeaderOk secure now request h).replies = h.replies ++ [.sendResponse 101]) := by
  subst hpath
  refine ⟨?_, ?_, ?_⟩
  · intro hne
    unfold LafrpcHttpRequestHandler.doPOST
    by_cases hc : toLower connectionHeader = bytes "upgrade"
    · have hu : toLower upgradeHeader ≠ bytes "lafrpc" := by
        cases hne with
        | inl h1 => exact absurd hc h1
        | inr h2 => exact h2
      simp [hc, hu, NotFound]
    · simp [hc, NotFound]
  · intro hc hu hr
    subst hr
    simp [LafrpcHttpRequestHandler.doPOST, hc, hu, ServiceUnavailable]
  · intro hc hu hr
    cases rpc with
    | none => exact absurd rfl hr
    | some live =>
      exact doPOST_switch rpcLater live path connectionHeader upgradeHeader endHeaderOk secure
        now request h hc hu

/-- Witness of `doPOST_reply`: three POSTs to `/rpc` on a handler bound to
`/rpc`, one with a `Connection` header that is not an upgrade, one with the
upgrade headers and a null `rpc`, one with the upgrade headers and a live
`rpc`. -/
theorem doPOST_reply_witness :
    LafrpcHttpRequestHandler.doPOST (some (sampleRpc true)) (some (sampleRpc true))
        "/rpc".toList "/rpc".toList (bytes "keep-alive") (bytes "LAFRPC") true false 7
        sampleStream sampleHandler
      = { sampleHandler with replies := sampleHandler.replies ++ [.sendError 404] } ∧
    LafrpcHttpRequestHandler.doPOST none none "/rpc".toList "/rpc".toList (bytes "UPGRADE")
        (bytes "LafRpc") true false 7 sampleStream sampleHandler
      = { sampleHandler with replies := sampleHandler.replies ++ [.sendError 503] } ∧
    (LafrpcHttpRequestHandler.doPOST (some (sampleRpc true)) (some (sampleRpc true))
        "/rpc".toList "/rpc".toList (bytes "UPGRADE") (bytes "LafRpc") true false 7
        sampleStream sampleHandler).replies
      = sampleHandler.replies ++ [.sendResponse 101] :=
  ⟨(doPOST_reply (some (sampleRpc true)) (some (sampleRpc true)) "/rpc".toList "/rpc".toList
      (bytes "keep-alive") (bytes "LAFRPC") true false 7 sampleStream sampleHandler rfl).1
      (Or.inl (by decide)),
    (doPOST_reply none none "/rpc".toList "/rpc".toList (bytes "UPGRADE") (bytes "LafRpc")
      true false 7 sampleStream sampleHandler rfl).2.1 (by decide) (by decide) rfl,
    (doPOST_reply (some (sampleRpc true)) (some (sampleRpc true)) "/rpc".toList "/rpc".toList
      (bytes "UPGRADE") (bytes "LafRpc") true false 7 sampleStream sampleHandler rfl).2.2
      (by decide) (by decide) (by simp)⟩

/-! ### The certificate properties of a channel -/

theorem find_after_set (n : String) (v : QByteArray) :
    ∀ l : List (String × QByteArray),
      (l.filter (fun e => e.1 ≠ n) ++ [(n, v)]).find? (fun e => e.1 = n) = some (n, v)
  | [] => by simp
  | e :: l => by
    have ih := find_after_set n v l
    by_cases he : e.1 = n
    · rw [List.filter_cons_of_neg (by simp [he])]
      exact ih
    · rw [List.filter_cons_of_pos (by simp [he]), List.cons_append,
        List.find?_cons_of_neg _ (by simp [he])]
      exact ih

theorem find_after_set_other (n other : String) (v : QByteArray) (h : other ≠ n) :
    ∀ l : List (String × QByteArray),
      (l.filter (fun e => e.1 ≠ n) ++ [(n, v)]).find? (fun e => e.1 = other)
        = l.find? (fun e => e.1 = other)
  | [] => by
    have h' : ¬ n = other := fun e => h e.symm
    simp [h']
  | e :: l => by
    have ih := find_after_set_other n other v h l
    by_cases he : e.1 = n
    · have ho : ¬ e.1 = other := fun e' => h (e'.symm.trans he)
      rw [List.filter_cons_of_neg (by simp [he]), List.find?_cons_of_neg _ (by simp [ho])]
      exact ih
    · rw [List.filter_cons_of_pos (by simp [he]), List.cons_append]
      by_cases ho : e.1 = other
      · rw [List.find?_cons_of_pos _ (by simp [ho]), List.find?_cons_of_pos _ (by simp [ho])]
      · rw [List.find?_cons_of_neg _ (by simp [ho]), List.find?_cons_of_neg _ (by simp [ho])]
        exact ih

theorem property_setProperty (channel : DataChannel) (n : String) (v : QByteArray) :
    (channel.setProperty n v).property n = some v := by
  simp [DataChannel.setProperty, DataChannel.property, find_after_set]

theorem property_setProperty_other (channel : DataChannel) (n other : String) (v : QByteArray)
    (h : other ≠ n) : (channel.setProperty n v).property other = channel.property other := by
  unfold DataChannel.setProperty DataChannel.property
  simp only
  rw [find_after_set_other n other v h]

/-- With a live `rpc` and a TLS stream whose certificate has a non-empty PEM
encoding and a non-empty digest, `setupChannel` sets both properties. -/
theorem setupChannel_sets (r : Rpc) (request : SocketLike) (channel : DataChannel)
    (cert : PeerCertificate) (hs : request.ssl = some cert) (hp : cert.pem ≠ [])
    (hd : cert.sha256 ≠ []) :
    (Transport.setupChannel (some r) request channel).property "peer_certificate"
      = some cert.pem ∧
    (Transport.setupChannel (some r) request channel).property "peer_certificate_hash"
      = some cert.sha256 := by
  have hc : (!cert.pem.isEmpty && !cert.sha256.isEmpty) = true := by
    simp [List.isEmpty_iff, hp, hd]
  unfold Transport.setupChannel
  simp only [hs, hc, if_true]
  constructor
  · rw [property_setProperty_other _ _ _ _ (by decide), property_setProperty]
  · rw [property_setProperty]

/-- In every other case `setupChannel` leaves the property bag as it was. -/
theorem setupChannel_keeps (rpc : Option Rpc) (request : SocketLike) (channel : DataChannel)
    (h : rpc = none ∨ ∀ cert, request.ssl = some cert → cert.pem = [] ∨ cert.sha256 = []) :
    (Transport.setupChannel rpc request channel).properties = channel.properties := by
  unfold Transport.setupChannel
  cases rpc with
  | none => rfl
  | some r =>
    have h' : ∀ cert, request.ssl = some cert → cert.pem = [] ∨ cert.sha256 = [] := by
      cases h with
      | inl h0 => exact absurd h0 (by simp)
      | inr h1 => exact h1
    cases hs : request.ssl with
    | none => rfl
    | some cert =>
      have hc : (!cert.pem.isEmpty && !cert.sha256.isEmpty) = false := by
        cases h' cert hs with
        | inl e => simp [e]
        | inr e => simp [e]
      simp [hc]

/-- C12, as stated, fails when `rpc` is null: `setupChannel` returns at once,
and the channel of a TLS stream with a non-empty certificate is left without
the two properties. -/
theorem setupChannel_null_rpc_no_certificate :
    tlsStream.ssl = some ⟨[0x2d, 0x2d], [0xab, 0xcd]⟩ ∧
    (Transport.setupChannel none tlsStream (SocketChannel tlsStream .positive)).property
      "peer_certificate" = none ∧
    (Transport.setupChannel none tlsStream (SocketChannel tlsStream .positive)).property
      "peer_certificate_hash" = none := by
  decide

/-- C12, amended: for every stream and every channel that has neither property
yet, after `setupChannel` the channel has the properties `peer_certificate`
and `peer_certificate_hash` if and only if `rpc` is not null and the stream is
a TLS stream whose peer certificate has a non-empty PEM encoding and a
non-empty SHA-256 digest; the channel has one of the two exactly when it has
the other, and when they are set they hold that PEM encoding and that
digest. -/
theorem setupChannel_certificate (rpc : Option Rpc) (request : SocketLike)
    (channel : DataChannel)
    (h1 : channel.property "peer_certificate" = none)
    (h2 : channel.property "peer_certificate_hash" = none) :
    (((Transport.setupChannel rpc request channel).property "peer_certificate" ≠ none ∧
      (Transport.setupChannel rpc request channel).property "peer_certificate_hash" ≠ none) ↔
      (rpc ≠ none ∧ ∃ cert, request.ssl = some cert ∧ cert.pem ≠ [] ∧ cert.sha256 ≠ [])) ∧
    ((Transport.setupChannel rpc request channel).property "peer_certificate" ≠ none ↔
      (Transport.setupChannel rpc request channel).property "peer_certificate_hash" ≠ none) ∧
    (((Transport.setupChannel rpc request channel).property "peer_certificate" ≠ none ∨
      (Transport.setupChannel rpc request channel).property "peer_certificate_hash" ≠ none) →
      ∃ cert, request.ssl = some cert ∧
        (Transport.setupChannel rpc request channel).property "peer_certificate"
          = some cert.pem ∧
        (Transport.setupChannel rpc request channel).property "peer_certificate_hash"
          = some cert.sha256) := by
  by_cases hset : rpc ≠ none ∧ ∃ cert, request.ssl = some cert ∧ cert.pem ≠ [] ∧ cert.sha256 ≠ []
  · obtain ⟨hr, cert, hs, hp, hd⟩ := hset
    cases rpc with
    | none => exact absurd rfl hr
    | some r =>
      obtain ⟨e1, e2⟩ := setupChannel_sets r request channel cert hs hp hd
      refine ⟨?_, ?_, ?_⟩
      · rw [e1, e2]
        exact ⟨fun _ => ⟨by simp, cert, hs, hp, hd⟩, fun _ => ⟨by simp, by simp⟩⟩
      · rw [e1, e2]
        simp
      · intro _
        exact ⟨cert, hs, e1, e2⟩
  · have hk : (Transport.setupChannel rpc request channel).properties = channel.properties := by
      apply setupChannel_keeps
      by_cases hr : rpc = none
      · exact Or.inl hr
      · right
        intro cert hs
        by_contra hcon
        push_neg at hcon
        exact hset ⟨hr, cert, hs, hcon.1, hcon.2⟩
    have k1 : (Transport.setupChannel rpc request channel).property "peer_certificate"
        = none := by
      unfold DataChannel.property at h1 ⊢
      rw [hk]; exact h1
    have k2 : (Transport.setupChannel rpc request channel).property "peer_certificate_hash"
        = none := by
      unfold DataChannel.property at h2 ⊢
      rw [hk]; exact h2
    refine ⟨?_, ?_, ?_⟩
    · rw [k1, k2]
      exact ⟨fun h => absurd rfl h.1, fun h => absurd h hset⟩
    · rw [k1, k2]
    · rw [k1, k2]
      intro h
      cases h with
      | inl h => exact absurd rfl h
      | inr h => exact absurd rfl h

/-- Witness of `setupChannel_certificate`: a live `rpc` and a TLS stream with
a non-empty certificate. -/
theorem setupChannel_certificate_witness :
    (Transport.setupChannel (some (sampleRpc true)) tlsStream
        (SocketChannel tlsStream .positive)).property "peer_certificate" ≠ none ∧
    (Transport.setupChannel (some (sampleRpc true)) tlsStream
        (SocketChannel tlsStream .positive)).property "peer_certificate_hash" ≠ none :=
  (setupChannel_certificate (some (sampleRpc true)) tlsStream
    (SocketChannel tlsStream .positive) (by decide) (by decide)).1.mpr
    ⟨by simp, ⟨[0x2d, 0x2d], [0xab, 0xcd]⟩, rfl, by decide, by decide⟩

/-! ### What `finish` does with the stream -/

end Lafrpc
